import Mathlib

/-!
Verification development for the SGTE degree-processing tracker.

The definitions below are shallow embeddings of the Python source:
- `SGTE/services/estudiantes.py` (`validar_run`, `formatear_run`),
- `backend/api/routes/documentos.py` (`obtener_checklist_estudiante`,
  `subir_documento`, `validar_documento`),
- `backend/api/routes/operaciones.py` (`cambiar_estado_masivo`),
- `database/connection.py` (`get_session_context`, `get_session`).

Python strings are modelled as lists of Unicode code points (`List Nat`);
Python truth values `None`/`False`/`True` arising from `and`/`or` chains are
modelled as `Option Bool` (`none`/`some false`/`some true`).
-/

namespace SGTE

/-! ## Identity validator (`services/estudiantes.py`) -/

/-- A Python string, as its list of code points. -/
abbrev CadenaPy := List Nat

/-- Embeds Python `str.upper` per character (ASCII range, the RUN alphabet). -/
def pyUpper (c : Nat) : Nat := if 97 ≤ c ∧ c ≤ 122 then c - 32 else c

/-- Embeds Python `str.strip` whitespace test per character. -/
def esEspacio (c : Nat) : Bool := c = 32 || c = 9 || c = 10 || c = 13 || c = 11 || c = 12

/-- Embeds Python `str.strip`: drop whitespace from both ends. -/
def stripEspacios (s : CadenaPy) : CadenaPy :=
  ((s.dropWhile esEspacio).reverse.dropWhile esEspacio).reverse

/-- Embeds `run.upper().replace(".", "").replace("-", "").strip()`
(code point 46 is `.`, 45 is `-`). -/
def limpiar (s : CadenaPy) : CadenaPy :=
  stripEspacios ((((s.map pyUpper).filter (fun c => c ≠ 46)).filter (fun c => c ≠ 45)))

/-- Embeds Python `str.isdigit` per character (ASCII digits). -/
def esDigito (c : Nat) : Bool := 48 ≤ c && c ≤ 57

/-- Embeds the weighted-sum loop of `validar_run`: iterate the (already
reversed) body, multiplying each digit by the current weight, the weight
stepping `2,3,4,5,6,7,2,3,...`. `int(c)` on a digit code point is `c - 48`. -/
def sumaPonderada : CadenaPy → Nat → Nat
  | [], _ => 0
  | c :: rest, multiplo =>
    (c - 48) * multiplo + sumaPonderada rest (if multiplo < 7 then multiplo + 1 else 2)

/-- The check character computed by `validar_run` for a body `cuerpo`:
`suma` is the weighted sum over the reversed body starting at weight 2,
`resto = suma % 11`, then
`str(11 - resto) if resto > 1 else ("0" if resto == 0 else "K")`. -/
def dvCalculado (cuerpo : CadenaPy) : Nat :=
  if sumaPonderada cuerpo.reverse 2 % 11 > 1 then
    48 + (11 - sumaPonderada cuerpo.reverse 2 % 11)
  else if sumaPonderada cuerpo.reverse 2 % 11 = 0 then 48 else 75

/-- The core of `validar_run` acting on the cleaned string `run_limpio`:
`cuerpo` is `run_limpio[:-1]`, `dv_ingresado` is `run_limpio[-1]`. -/
def validarNucleo (run_limpio : CadenaPy) : Bool × String :=
  if run_limpio.length < 8 ∨ run_limpio.length > 9 then
    (false, "RUN debe tener entre 8 y 9 caracteres")
  else if ¬ run_limpio.dropLast.all esDigito then
    (false, "El cuerpo del RUN debe ser numerico")
  else if run_limpio.getLastD 0 ≠ dvCalculado run_limpio.dropLast then
    (false, "Digito verificador incorrecto")
  else
    (true, "RUN valido")

/-- Embeds `validar_run`: clean the input, then validate format and
check digit. -/
def validar_run (run : CadenaPy) : Bool × String :=
  validarNucleo (limpiar run)

/-- One step of the dot-grouping loop of `formatear_run`: given the pair
`(i, c)` from `enumerate(reversed(cuerpo))`, prepend a grouping dot when
`i > 0 and i % 3 == 0`, then prepend the character. -/
def pasoPunto (acc : CadenaPy) (p : Nat × Nat) : CadenaPy :=
  let acc2 := if 0 < p.1 ∧ p.1 % 3 = 0 then 46 :: acc else acc
  p.2 :: acc2

/-- Embeds the dot-grouping loop of `formatear_run` over the body. -/
def cuerpoFormateado (cuerpo : CadenaPy) : CadenaPy :=
  (cuerpo.reverse.enum.foldl pasoPunto [])

/-- The core of `formatear_run` acting on the cleaned string. -/
def formatearNucleo (run_limpio : CadenaPy) : CadenaPy :=
  cuerpoFormateado run_limpio.dropLast ++ [45, run_limpio.getLastD 0]

/-- Embeds `formatear_run`: clean, then group the body with dots and append
hyphen plus check character. -/
def formatear_run (run : CadenaPy) : CadenaPy :=
  formatearNucleo (limpiar run)

/-! ## Data model (`database/models.py`) -/

/-- Document categories (`TipoDocumento`). -/
inductive TipoDocumento where
  | bienestar
  | finanzas_titulo
  | finanzas_licencia
  | biblioteca
  | sdt
  | memorandum
  | acta
  | otro
deriving DecidableEq

/-- Expediente states (`EstadoExpediente`). -/
inductive EstadoExpediente where
  | pendiente
  | en_proceso
  | listo_envio
  | enviado
  | aprobado
  | titulado
deriving DecidableEq

/-- A `Documento` row. Timestamps are abstract instants (`Nat`). -/
structure Documento where
  id : Nat
  estudiante_run : String
  tipo : TipoDocumento
  path : Option String
  validado : Bool
  uploaded_at : Nat
  validated_at : Option Nat
  validated_by : Option String
deriving DecidableEq

/-- A `Proyecto` row.  The model (`database/models.py` lines 134-179)
declares the student foreign keys as `estudiante_run1` (required) and
`estudiante_run2` (optional co-author); there is no `estudiante_run`
column. -/
structure Proyecto where
  id : Nat
  estudiante_run1 : String
  estudiante_run2 : Option String
deriving DecidableEq

/-- An `Expediente` row (the fields the bulk operation reads and writes). -/
structure Expediente where
  id : Nat
  proyecto_id : Nat
  estado : EstadoExpediente
deriving DecidableEq

/-- The database state seen by the document routes: the student table (by
RUN), the document table, and the autoincrement counter for document ids. -/
structure BaseDatos where
  estudiantes : List String
  documentos : List Documento
  siguiente_id : Nat
deriving DecidableEq

/-- The database state seen by the bulk status operation. -/
structure BaseExpedientes where
  proyectos : List Proyecto
  expedientes : List Expediente
deriving DecidableEq

/-! ## Document checklist engine (`backend/api/routes/documentos.py`) -/

/-- `DOCUMENTOS_REQUERIDOS` from the source. -/
def DOCUMENTOS_REQUERIDOS : List TipoDocumento :=
  [.bienestar, .finanzas_titulo, .finanzas_licencia, .biblioteca, .sdt, .memorandum]

/-- `NOMBRES_DOCUMENTOS` from the source. -/
def NOMBRES_DOCUMENTOS : TipoDocumento → String
  | .bienestar => "Bienestar Estudiantil"
  | .finanzas_titulo => "Finanzas (Titulo)"
  | .finanzas_licencia => "Finanzas (Licenciatura)"
  | .biblioteca => "Biblioteca"
  | .sdt => "SDT (Secretaria Docente)"
  | .memorandum => "Memorandum de Solicitud"
  | .acta => "Acta"
  | .otro => "Otro"

/-- Embeds `documentos_dict = {doc.tipo: doc for doc in docs}` followed by
`documentos_dict.get(t)`: later rows overwrite earlier ones for the same
category. -/
def dictGet (docs : List Documento) (t : TipoDocumento) : Option Documento :=
  docs.foldl (fun acc d => if d.tipo = t then some d else acc) none

/-- Embeds Python `p or q` where both operands are `None`/`False`/`True`:
returns `p` when `p` is truthy (i.e. `True`), else `q`. -/
def pyOr (p q : Option Bool) : Option Bool :=
  if p = some true then p else q

/-- Python `doc is not None and doc.validado`. -/
def docValidado (o : Option Documento) : Bool :=
  match o with
  | none => false
  | some d => d.validado

/-- Python `doc is not None and doc.path is not None`. -/
def docTiene (o : Option Documento) : Bool :=
  match o with
  | none => false
  | some d => d.path.isSome

/-- A checklist entry as returned by `obtener_checklist_estudiante`. The
`validado` field carries a Python truth value (it is `None` in some cases,
see the source's `validado_finanzas` expression). -/
structure ItemChecklist where
  tipo : TipoDocumento
  nombre : String
  requerido : Bool
  tiene_documento : Bool
  validado : Option Bool
  id : Option Nat
  path : Option String
deriving DecidableEq

/-- The `resumen` block of the checklist response. -/
structure Resumen where
  total_requeridos : Nat
  documentos_validados : Nat
  documentos_faltantes : Nat
  listo_para_solicitar : Bool
deriving DecidableEq

/-- The `data` payload of the checklist response. -/
structure ChecklistData where
  checklist : List ItemChecklist
  resumen : Resumen
deriving DecidableEq

/-- One iteration of the `for tipo_doc in DOCUMENTOS_REQUERIDOS` loop:
returns the items appended and the increment of
`documentos_requeridos_validados`.  The `finanzas_titulo` case merges the
two financial variants into one slot (`validado_finanzas` is the Python
`and`/`or` chain, `doc_finanzas` the Python `A or B` on rows); the
`finanzas_licencia` case is the `continue`. -/
def pasoRequerido (dict : TipoDocumento → Option Documento) (tipo_doc : TipoDocumento) :
    List ItemChecklist × Nat :=
  if tipo_doc = .finanzas_titulo then
    let a := dict .finanzas_titulo
    let b := dict .finanzas_licencia
    let tiene_finanzas := a.isSome || b.isSome
    let validado_finanzas := pyOr (a.map (fun d => d.validado)) (b.map (fun d => d.validado))
    let doc_finanzas := if a.isSome then a else b
    ([{ tipo := tipo_doc
        nombre := NOMBRES_DOCUMENTOS tipo_doc
        requerido := true
        tiene_documento := tiene_finanzas
        validado := validado_finanzas
        id := doc_finanzas.map (fun d => d.id)
        path := doc_finanzas.bind (fun d => d.path) }],
     if validado_finanzas = some true then 1 else 0)
  else if tipo_doc = .finanzas_licencia then
    ([], 0)
  else
    let doc := dict tipo_doc
    ([{ tipo := tipo_doc
        nombre := NOMBRES_DOCUMENTOS tipo_doc
        requerido := true
        tiene_documento := docTiene doc
        validado := some (docValidado doc)
        id := doc.map (fun d => d.id)
        path := doc.bind (fun d => d.path) }],
     if docValidado doc then 1 else 0)

/-- The required-documents loop, accumulating checklist items in order and
the count of validated required slots. -/
def construirChecklist (dict : TipoDocumento → Option Documento) :
    List TipoDocumento → List ItemChecklist × Nat
  | [] => ([], 0)
  | t :: ts =>
    let paso := pasoRequerido dict t
    let resto := construirChecklist dict ts
    (paso.1 ++ resto.1, paso.2 + resto.2)

/-- The optional-documents loop: one non-required entry per document whose
category is outside `DOCUMENTOS_REQUERIDOS`. -/
def itemsOpcionales (docs : List Documento) : List ItemChecklist :=
  (docs.filter (fun d => !DOCUMENTOS_REQUERIDOS.contains d.tipo)).map (fun d =>
    { tipo := d.tipo
      nombre := NOMBRES_DOCUMENTOS d.tipo
      requerido := false
      tiene_documento := d.path.isSome
      validado := some d.validado
      id := some d.id
      path := d.path })

/-- `session.query(Documento).filter(Documento.estudiante_run == run).all()`. -/
def docsDe (db : BaseDatos) (run : String) : List Documento :=
  db.documentos.filter (fun d => d.estudiante_run = run)

/-- The checklist payload built for a student (the body of
`obtener_checklist_estudiante` after the existence check). -/
def construirDatos (db : BaseDatos) (run : String) : ChecklistData :=
  let docs := docsDe db run
  let dict := dictGet docs
  let par := construirChecklist dict DOCUMENTOS_REQUERIDOS
  let total_requeridos := DOCUMENTOS_REQUERIDOS.length - 1
  let validados := par.2
  { checklist := par.1 ++ itemsOpcionales docs
    resumen :=
      { total_requeridos := total_requeridos
        documentos_validados := validados
        documentos_faltantes := total_requeridos - validados
        listo_para_solicitar := validados == total_requeridos } }

/-- Embeds `obtener_checklist_estudiante`: a missing student raises
`HTTPException(404, "Estudiante no encontrado")`, otherwise the checklist
payload is returned. -/
def obtener_checklist_estudiante (db : BaseDatos) (run : String) :
    Except (Nat × String) ChecklistData :=
  if db.estudiantes.contains run then
    .ok (construirDatos db run)
  else
    .error (404, "Estudiante no encontrado")

/-! ## Document upsert and validation (`backend/api/routes/documentos.py`) -/

/-- SQLAlchemy `.first()` followed by in-place mutation of the returned row:
update the first element satisfying `p`. -/
def actualizarPrimero (p : α → Bool) (f : α → α) : List α → List α
  | [] => []
  | x :: xs => if p x then f x :: xs else x :: actualizarPrimero p f xs

/-- Embeds the database part of `subir_documento` (`POST /upload`): if a row
for `(run, tipo)` exists, replace its path, reset `uploaded_at` and reset
`validado` to `False`; else insert a new row with `validado=False`.  Returns
the new database state and `doc_id`. -/
def subir_documento (db : BaseDatos) (run : String) (tipo : TipoDocumento)
    (ruta : String) (ahora : Nat) : BaseDatos × Nat :=
  match db.documentos.find? (fun d => d.estudiante_run == run && d.tipo == tipo) with
  | some doc_existente =>
    ({ db with
       documentos := actualizarPrimero
         (fun d => d.estudiante_run == run && d.tipo == tipo)
         (fun d => { d with path := some ruta, uploaded_at := ahora, validado := false })
         db.documentos },
     doc_existente.id)
  | none =>
    let nuevo_doc : Documento :=
      { id := db.siguiente_id, estudiante_run := run, tipo := tipo,
        path := some ruta, validado := false, uploaded_at := ahora,
        validated_at := none, validated_by := none }
    ({ db with documentos := db.documentos ++ [nuevo_doc],
               siguiente_id := db.siguiente_id + 1 },
     nuevo_doc.id)

/-- Embeds `validar_documento` (`PUT /{doc_id}/validar`): sets the validated
flag of the row with the given id; on `True` stamps `validated_at` and
`validated_by`, on `False` clears them; 404 when the row is missing. -/
def validar_documento (db : BaseDatos) (doc_id : Nat) (validado : Bool) (ahora : Nat) :
    Except (Nat × String) BaseDatos :=
  match db.documentos.find? (fun d => d.id == doc_id) with
  | none => .error (404, "Documento no encontrado")
  | some _ =>
    .ok { db with
          documentos := actualizarPrimero (fun d => d.id == doc_id)
            (fun d =>
              if validado then
                { d with validado := true, validated_at := some ahora,
                         validated_by := some "Sistema" }
              else
                { d with validado := false, validated_at := none, validated_by := none })
            db.documentos }

/-- Inserting one document row (`session.add(...)` on the documents table). -/
def agregarDocumento (db : BaseDatos) (d : Documento) : BaseDatos :=
  { db with documentos := db.documentos ++ [d] }

/-! ## Bulk status change (`backend/api/routes/operaciones.py`) -/

/-- The attribute names exposed by the SQLAlchemy `Proyecto` declarative
class (`database/models.py` lines 134-179): its mapped columns and
relationships.  The class declares `estudiante_run1` and `estudiante_run2`;
there is no `estudiante_run` attribute. -/
def atributosProyecto : List String :=
  ["id", "estudiante_run1", "estudiante_run2", "semestre", "modalidad_titulacion",
   "titulo", "link_documento", "created_at", "updated_at",
   "estudiante_1", "estudiante_2", "comision", "expediente", "hitos"]

/-- Embeds the class-attribute access `Proyecto.<nombre>` that builds a
query filter: yields the column for a declared attribute and raises
`AttributeError` for any other name. -/
def columnaProyecto (nombre : String) : Except String String :=
  if atributosProyecto.contains nombre then .ok nombre
  else .error ("type object 'Proyecto' has no attribute '" ++ nombre ++ "'")

/-- The text value of a student-identifier column on a `Proyecto` row, as
an equality filter against a RUN would read it. -/
def valorColumnaTexto (p : Proyecto) : String → Option String
  | "estudiante_run1" => some p.estudiante_run1
  | "estudiante_run2" => p.estudiante_run2
  | _ => none

/-- One iteration of the `for run in request.runs` loop of
`cambiar_estado_masivo` (`operaciones.py` lines 128-142).  The filter is
built from `Proyecto.estudiante_run`; the model declares no such attribute,
so this access raises `AttributeError` before any row is read.  Were the
attribute to resolve, the body would take the student's first `Proyecto`,
then the project's first `Expediente`, set its estado and count it,
skipping runs without either. -/
def pasoCambioEstado (estado : EstadoExpediente) (acc : BaseExpedientes × Nat)
    (run : String) : Except String (BaseExpedientes × Nat) :=
  match columnaProyecto "estudiante_run" with
  | .error e => .error e
  | .ok col =>
    match acc.1.proyectos.find? (fun p => valorColumnaTexto p col == some run) with
    | none => .ok acc
    | some proyecto =>
      match acc.1.expedientes.find? (fun e => e.proyecto_id == proyecto.id) with
      | none => .ok acc
      | some _ =>
        .ok ({ acc.1 with
               expedientes := actualizarPrimero (fun e => e.proyecto_id == proyecto.id)
                 (fun e => { e with estado := estado }) acc.1.expedientes },
             acc.2 + 1)

/-- The loop over the requested runs inside the unit of work; the first
raised exception aborts the remainder. -/
def bucleCambioEstado (estado : EstadoExpediente) :
    BaseExpedientes × Nat → List String → Except String (BaseExpedientes × Nat)
  | acc, [] => .ok acc
  | acc, run :: rest =>
    match pasoCambioEstado estado acc run with
    | .error e => .error e
    | .ok acc2 => bucleCambioEstado estado acc2 rest

/-- A JSON-ish value in the bulk-operation response body. -/
inductive ValorRespuesta where
  | booleano (b : Bool)
  | texto (s : String)
  | numero (n : Nat)
deriving DecidableEq

/-- What a request to the bulk route leaves behind: the committed database
visible afterwards and the HTTP outcome — a JSON body, or a status code
with detail. -/
structure ResultadoRuta where
  estado_visible : BaseExpedientes
  respuesta : Except (Nat × String) (List (String × ValorRespuesta))

/-- Embeds `cambiar_estado_masivo` (`POST /cambiar-estado`) for a valid
target status: an empty batch is rejected with 400 before the unit of work
opens; otherwise the loop runs inside `get_session_context` — a raised
exception rolls the session back (the committed state stays untouched) and
the generic `except Exception` handler turns it into an HTTP 500; on normal
exit the session commits and the dict
`{"success": True, "message": ..., "actualizados": actualizados}` is
returned. -/
def cambiar_estado_masivo (db : BaseExpedientes) (runs : List String)
    (estado : EstadoExpediente) : ResultadoRuta :=
  if runs.isEmpty then
    { estado_visible := db
      respuesta := .error (400, "Debe seleccionar al menos un estudiante") }
  else
    match bucleCambioEstado estado (db, 0) runs with
    | .error e => { estado_visible := db, respuesta := .error (500, e) }
    | .ok (db2, actualizados) =>
      { estado_visible := db2
        respuesta := .ok
          [("success", .booleano true),
           ("message", .texto ("Estado actualizado para "
              ++ toString actualizados ++ " expedientes")),
           ("actualizados", .numero actualizados)] }

/-! ## Persistence gateway (`database/connection.py`) -/

/-- The observable outcome of one `get_session_context` scope: the value or
exception that propagates, the committed database visible afterwards, and
whether the session was closed. -/
structure ResultadoUnidadTrabajo (ε σ : Type) where
  resultado : Except ε Unit
  estado_visible : σ
  sesion_cerrada : Bool

/-- Embeds the `get_session_context` context manager: the body `operacion`
runs against the committed state and produces a pending state; `try`/`yield`
then `session.commit()` publishes it on normal exit; `except Exception`
performs `session.rollback()` (the pending state is discarded, the committed
state stays) and re-raises; `finally: session.close()` runs on both paths. -/
def get_session_context (estado : σ) (operacion : σ → Except ε σ) :
    ResultadoUnidadTrabajo ε σ :=
  match operacion estado with
  | .ok pendiente => { resultado := .ok (), estado_visible := pendiente, sesion_cerrada := true }
  | .error e => { resultado := .error e, estado_visible := estado, sesion_cerrada := true }

/-- The two failure classes of a session-acquisition attempt:
`sqlite3.OperationalError` (lock contention, retried by the decorator) and
any other exception (not retried). -/
inductive FalloSesion where
  | bloqueada
  | otra
deriving DecidableEq

/-- The outcome of `get_session` under its `tenacity` retry decorator. -/
inductive SalidaSesion where
  | sesion (id : Nat)
  | reintentosAgotados
  | falloNoReintentable
deriving DecidableEq

/-- A `get_session` run: outcome, number of attempts made, and the backoff
waits (in tenths of a second) slept between attempts. -/
structure EjecucionRetry where
  salida : SalidaSesion
  intentos : Nat
  esperas : List Nat
deriving DecidableEq

/-- `tenacity.wait_exponential(multiplier=0.5, min=0.5, max=10)` after the
`intento`-th attempt, in tenths of a second:
`clamp(0.5 * 2^intento, 0.5, 10)`. -/
def espera_exponencial (intento : Nat) : Nat :=
  min 100 (max 5 (5 * 2 ^ intento))

/-- The retry loop of the `@retry` decorator on `get_session`:
`mundo k` is the outcome of the `k`-th acquisition attempt (1-based).
A success returns the session; `sqlite3.OperationalError` sleeps the
exponential wait and retries while attempts remain and otherwise raises
`RetryError`; any other exception propagates immediately. -/
def bucle_reintentos (mundo : Nat → Except FalloSesion Nat) :
    Nat → Nat → List Nat → EjecucionRetry
  | 0, hechos, esperas => ⟨.reintentosAgotados, hechos, esperas.reverse⟩
  | restantes + 1, hechos, esperas =>
    match mundo (hechos + 1) with
    | .ok s => ⟨.sesion s, hechos + 1, esperas.reverse⟩
    | .error .bloqueada =>
      if restantes = 0 then
        ⟨.reintentosAgotados, hechos + 1, esperas.reverse⟩
      else
        bucle_reintentos mundo restantes (hechos + 1)
          (espera_exponencial (hechos + 1) :: esperas)
    | .error .otra => ⟨.falloNoReintentable, hechos + 1, esperas.reverse⟩

/-- Embeds `get_session` with `stop_after_attempt(max_retries)` (the
configured bound, 5 by default). -/
def get_session (max_retries : Nat) (mundo : Nat → Except FalloSesion Nat) :
    EjecucionRetry :=
  bucle_reintentos mundo max_retries 0 []

/-! ## Spec-side restatement of the check-digit algorithm (section 4.3 of the
specification), for comparison with the source's `validar_run`. -/

/-- The spec's cyclic weight sequence `2,3,4,5,6,7,2,3,4,...` at position
`k` (0-based, counted from the least-significant body digit). -/
def pesoCiclico (k : Nat) : Nat := 2 + k % 6

/-- The expected check character per the spec's wording: multiply body
digits from least-significant to most-significant by the cyclic weights, sum,
take `resto = suma % 11`; `"0"` when the remainder is 0, the digit
`11 - resto` when it exceeds 1, else `"K"`. -/
def dvEsperadoSpec (cuerpo : CadenaPy) : Nat :=
  let suma := (cuerpo.reverse.enum.map (fun p => (p.2 - 48) * pesoCiclico p.1)).sum
  let resto := suma % 11
  if resto = 0 then 48 else if resto > 1 then 48 + (11 - resto) else 75

/-! ## Lemmas about the validator -/

theorem sumaPonderada_enumFrom (l : CadenaPy) :
    ∀ j, sumaPonderada l (2 + j % 6)
      = ((List.enumFrom j l).map (fun p => (p.2 - 48) * pesoCiclico p.1)).sum := by
  induction l with
  | nil => intro j; simp [sumaPonderada]
  | cons c rest ih =>
    intro j
    have hm : (if 2 + j % 6 < 7 then 2 + j % 6 + 1 else 2) = 2 + (j + 1) % 6 := by
      split <;> omega
    simp only [sumaPonderada, List.enumFrom, List.map_cons, List.sum_cons, hm, ih (j + 1),
      pesoCiclico]

theorem dvCalculado_eq_spec (cuerpo : CadenaPy) : dvCalculado cuerpo = dvEsperadoSpec cuerpo := by
  simp only [dvCalculado, dvEsperadoSpec]
  have hsum := sumaPonderada_enumFrom cuerpo.reverse 0
  simp only [Nat.zero_mod, Nat.add_zero] at hsum
  rw [List.enum, ← hsum]
  have hlt : sumaPonderada cuerpo.reverse 2 % 11 < 11 :=
    Nat.mod_lt _ (by omega)
  split_ifs <;> omega

theorem validarNucleo_checkDigit (l : CadenaPy) (h8 : 8 ≤ l.length) (h9 : l.length ≤ 9)
    (hd : l.dropLast.all esDigito = true) :
    ((validarNucleo l).1 = true ↔ l.getLastD 0 = dvCalculado l.dropLast) := by
  unfold validarNucleo
  rw [if_neg (by omega), if_neg (by simp [hd])]
  split_ifs with h
  · simp only [false_iff]
    exact h
  · simpa using h

theorem validar_run_true_inv (s : CadenaPy) (h : (validar_run s).1 = true) :
    8 ≤ (limpiar s).length ∧ (limpiar s).length ≤ 9 ∧
      (limpiar s).dropLast.all esDigito = true ∧
      (limpiar s).getLastD 0 = dvCalculado (limpiar s).dropLast := by
  unfold validar_run validarNucleo at h
  split_ifs at h with h1 h2 h3
  · refine ⟨by omega, by omega, ?_, by simpa using h3⟩
    simpa using h2

theorem dvCalculado_rango (cuerpo : CadenaPy) :
    (48 ≤ dvCalculado cuerpo ∧ dvCalculado cuerpo ≤ 57) ∨ dvCalculado cuerpo = 75 := by
  unfold dvCalculado
  have hlt : sumaPonderada cuerpo.reverse 2 % 11 < 11 := Nat.mod_lt _ (by omega)
  split_ifs <;> omega

/-! ## Lemmas about cleaning and formatting -/

theorem stripEspacios_eq_self (s : CadenaPy) (h : ∀ c ∈ s, esEspacio c = false) :
    stripEspacios s = s := by
  unfold stripEspacios
  have h1 : s.dropWhile esEspacio = s := by
    cases s with
    | nil => rfl
    | cons c rest => rw [List.dropWhile_cons_of_neg (by simp [h c (by simp)])]
  rw [h1]
  have h2 : s.reverse.dropWhile esEspacio = s.reverse := by
    cases hs : s.reverse with
    | nil => rfl
    | cons c rest =>
      rw [List.dropWhile_cons_of_neg]
      simp only [Bool.not_eq_true]
      exact h c (by rw [← List.mem_reverse, hs]; simp)
  rw [h2, List.reverse_reverse]

theorem enumFrom_map_snd (lm : List Nat) : ∀ n, (List.enumFrom n lm).map Prod.snd = lm := by
  induction lm with
  | nil => intro n; rfl
  | cons c rest ih => intro n; simp [List.enumFrom, ih]

theorem filter_foldl_pasoPunto (l : List (Nat × Nat)) :
    ∀ acc, (∀ p ∈ l, p.2 ≠ 46) →
      ((l.foldl pasoPunto acc).filter (fun c => c ≠ 46))
        = (l.map Prod.snd).reverse ++ acc.filter (fun c => c ≠ 46) := by
  induction l with
  | nil => intro acc _; rfl
  | cons p rest ih =>
    intro acc hp
    rw [List.foldl_cons, ih _ (fun q hq => hp q (by simp [hq]))]
    have hps : (pasoPunto acc p).filter (fun c => c ≠ 46)
        = p.2 :: acc.filter (fun c => c ≠ 46) := by
      unfold pasoPunto
      split_ifs with h
      · simp [hp p (by simp)]
      · simp [hp p (by simp)]
    rw [hps]
    simp

theorem mem_pasoPunto (acc : CadenaPy) (p : Nat × Nat) (x : Nat)
    (hx : x ∈ pasoPunto acc p) : x = p.2 ∨ x = 46 ∨ x ∈ acc := by
  unfold pasoPunto at hx
  split_ifs at hx with hi
  · simp only [List.mem_cons] at hx
    tauto
  · simp only [List.mem_cons] at hx
    tauto

theorem mem_foldl_pasoPunto (l : List (Nat × Nat)) :
    ∀ acc x, x ∈ l.foldl pasoPunto acc → x ∈ l.map Prod.snd ∨ x = 46 ∨ x ∈ acc := by
  induction l with
  | nil => intro acc x hx; simp at hx; simp [hx]
  | cons p rest ih =>
    intro acc x hx
    rw [List.foldl_cons] at hx
    rcases ih _ x hx with h | h | h
    · exact Or.inl (by simp at h ⊢; tauto)
    · exact Or.inr (Or.inl h)
    · rcases mem_pasoPunto _ _ _ h with h2 | h2 | h2
      · exact Or.inl (by simp [h2])
      · exact Or.inr (Or.inl h2)
      · exact Or.inr (Or.inr h2)

theorem map_pyUpper_eq_self (s : CadenaPy) (h : ∀ c ∈ s, c < 97) : s.map pyUpper = s := by
  have h2 : ∀ c ∈ s, pyUpper c = c := by
    intro c hc
    unfold pyUpper
    rw [if_neg (by have := h c hc; omega)]
  calc s.map pyUpper = s.map id := List.map_congr_left h2
  _ = s := List.map_id s

theorem getLastD_concat (l : List Nat) (a : Nat) : ∀ d, (l ++ [a]).getLastD d = a := by
  induction l with
  | nil => intro d; rfl
  | cons c rest ih =>
    intro d
    rw [List.cons_append, List.getLastD_cons]
    exact ih c

/-- For a nonempty cleaned string made of digits and `K`, formatting and
re-cleaning gives back the cleaned string: upper-casing fixes every
character, the filters remove exactly the inserted dots and hyphen, and
stripping removes nothing. -/
theorem limpiar_formatearNucleo (l : CadenaPy) (hne : l ≠ [])
    (hchars : ∀ c ∈ l, esDigito c = true ∨ c = 75) :
    limpiar (formatearNucleo l) = l := by
  obtain ⟨l', a, hla⟩ := (List.eq_nil_or_concat l).resolve_left hne
  rw [List.concat_eq_append] at hla
  subst hla
  have hrango : ∀ c ∈ l' ++ [a], 46 < c ∧ c < 97 ∧ c ≠ 46 ∧ c ≠ 45 := by
    intro c hc
    rcases hchars c hc with h | h
    · unfold esDigito at h
      simp only [Bool.and_eq_true, decide_eq_true_eq] at h
      omega
    · omega
  have hsub : ∀ c ∈ (l' ++ [a]).dropLast, c ∈ l' ++ [a] := fun c hc =>
    (List.dropLast_sublist (l' ++ [a])).subset hc
  unfold formatearNucleo limpiar cuerpoFormateado
  rw [getLastD_concat]
  -- the mapped string is unchanged by upper-casing
  rw [map_pyUpper_eq_self]
  · -- the first filter removes exactly the grouping dots
    rw [List.filter_append, filter_foldl_pasoPunto]
    · rw [List.enum, enumFrom_map_snd, List.reverse_reverse, List.dropLast_concat]
      have h45 : (([45, a] : CadenaPy).filter (fun c => c ≠ 46)) = [45, a] := by
        have := (hrango a (by simp)).2.2.1
        simp [List.filter, this]
      rw [List.filter_nil, List.append_nil, h45]
      -- the second filter removes exactly the hyphen
      rw [List.filter_append]
      have hl' : (l'.filter (fun c => c ≠ 45)) = l' := by
        rw [List.filter_eq_self]
        intro c hc
        simp [(hrango c (by simp [hc])).2.2.2]
      have ha2 : (([45, a] : CadenaPy).filter (fun c => c ≠ 45)) = [a] := by
        have := (hrango a (by simp)).2.2.2
        simp [List.filter, this]
      rw [hl', ha2]
      -- stripping removes nothing
      apply stripEspacios_eq_self
      intro c hc
      have := (hrango c hc).1
      unfold esEspacio
      simp only [Bool.or_eq_false_iff, decide_eq_false_iff_not]
      omega
    · intro p hp
      have hmem : p.2 ∈ (l' ++ [a]).dropLast := by
        have h2 := List.mem_map_of_mem Prod.snd hp
        rw [List.enum, enumFrom_map_snd, List.mem_reverse] at h2
        exact h2
      exact (hrango p.2 (hsub _ hmem)).2.2.1
  · intro c hc
    simp only [List.mem_append] at hc
    rcases hc with hc | hc
    · rcases mem_foldl_pasoPunto _ _ c hc with h | h | h
      · rw [List.enum, enumFrom_map_snd, List.mem_reverse] at h
        exact (hrango c (hsub _ h)).2.1
      · omega
      · simp at h
    · simp only [List.mem_cons, List.mem_singleton] at hc
      rcases hc with rfl | hc
      · omega
      · rcases hc with rfl | h
        · exact (hrango c (by simp)).2.1
        · simp at h

/-- The characters of a cleaned string accepted by `validar_run` are digits
except for the final check character, which is a digit or `K`. -/
theorem chars_limpiar_validos (s : CadenaPy) (h : (validar_run s).1 = true) :
    ∀ c ∈ limpiar s, esDigito c = true ∨ c = 75 := by
  obtain ⟨h8, _, hd, hdv⟩ := validar_run_true_inv s h
  have hne : limpiar s ≠ [] := by
    intro hnil
    rw [hnil] at h8
    simp at h8
  intro c hc
  obtain ⟨l', a, hla⟩ := (List.eq_nil_or_concat (limpiar s)).resolve_left hne
  rw [List.concat_eq_append] at hla
  rw [hla, List.mem_append] at hc
  rcases hc with hc | hc
  · rw [hla, List.dropLast_concat] at hd
    exact Or.inl (by simpa using List.all_eq_true.mp hd c hc)
  · have ha : c = dvCalculado (limpiar s).dropLast := by
      rw [← hdv, hla, getLastD_concat]
      simpa using hc
    rcases dvCalculado_rango (limpiar s).dropLast with hr | hr
    · refine Or.inl ?_
      unfold esDigito
      simp only [Bool.and_eq_true, decide_eq_true_eq]
      omega
    · exact Or.inr (by omega)

/-! ## Claims about the identity validator -/

/-- **C3.** For every raw identity string whose cleaned form (separators
stripped, uppercased) has length in `[8,9]` and an all-digit body,
`validar_run` declares the input valid exactly when the check character
computed by the spec's weighted modulo-11 algorithm (least-significant
first, cyclic weights `2..7`, remainder 0 ↦ `"0"`, remainder > 1 ↦ digit
`11 - resto`, remainder 1 ↦ `"K"`) equals the supplied last character;
case-insensitivity on `K` holds because the comparison happens after the
cleaning step upper-cases the input.  In particular the expected check
character for body `"12345678"` is `"5"` (code point 53). -/
theorem claim3_validar_run_digito_verificador :
    ∀ s : CadenaPy, 8 ≤ (limpiar s).length → (limpiar s).length ≤ 9 →
      (limpiar s).dropLast.all esDigito = true →
      (((validar_run s).1 = true ↔
          (limpiar s).getLastD 0 = dvEsperadoSpec (limpiar s).dropLast)
        ∧ dvEsperadoSpec [49, 50, 51, 52, 53, 54, 55, 56] = 53) := by
  intro s h8 h9 hd
  constructor
  · rw [← dvCalculado_eq_spec]
    exact validarNucleo_checkDigit (limpiar s) h8 h9 hd
  · decide

/-- Witness for C3 at the concrete input `"12345678-5"`. -/
theorem claim3_witness :
    (8 ≤ (limpiar [49, 50, 51, 52, 53, 54, 55, 56, 45, 53]).length
      ∧ (limpiar [49, 50, 51, 52, 53, 54, 55, 56, 45, 53]).length ≤ 9
      ∧ (limpiar [49, 50, 51, 52, 53, 54, 55, 56, 45, 53]).dropLast.all esDigito = true)
    ∧ ((validar_run [49, 50, 51, 52, 53, 54, 55, 56, 45, 53]).1 = true ↔
        (limpiar [49, 50, 51, 52, 53, 54, 55, 56, 45, 53]).getLastD 0
          = dvEsperadoSpec (limpiar [49, 50, 51, 52, 53, 54, 55, 56, 45, 53]).dropLast) := by
  refine ⟨⟨by decide, by decide, by decide⟩, ?_⟩
  exact (claim3_validar_run_digito_verificador [49, 50, 51, 52, 53, 54, 55, 56, 45, 53]
    (by decide) (by decide) (by decide)).1

/-- **C8.** For every raw identity string accepted by `validar_run`,
`validar_run (formatear_run s)` is also accepted, and `formatear_run` is
idempotent on it. -/
theorem claim8_validar_formatear_idempotente :
    ∀ s : CadenaPy, (validar_run s).1 = true →
      (validar_run (formatear_run s)).1 = true
        ∧ formatear_run (formatear_run s) = formatear_run s := by
  intro s h
  have hne : limpiar s ≠ [] := by
    obtain ⟨h8, -, -, -⟩ := validar_run_true_inv s h
    intro hnil
    rw [hnil] at h8
    simp at h8
  have hlf : limpiar (formatear_run s) = limpiar s :=
    limpiar_formatearNucleo (limpiar s) hne (chars_limpiar_validos s h)
  constructor
  · show (validarNucleo (limpiar (formatear_run s))).1 = true
    rw [hlf]
    exact h
  · show formatearNucleo (limpiar (formatear_run s)) = formatearNucleo (limpiar s)
    rw [hlf]

/-- Witness for C8 at the concrete valid input `"12345678-5"`. -/
theorem claim8_witness :
    (validar_run (formatear_run [49, 50, 51, 52, 53, 54, 55, 56, 45, 53])).1 = true
      ∧ formatear_run (formatear_run [49, 50, 51, 52, 53, 54, 55, 56, 45, 53])
          = formatear_run [49, 50, 51, 52, 53, 54, 55, 56, 45, 53] :=
  claim8_validar_formatear_idempotente [49, 50, 51, 52, 53, 54, 55, 56, 45, 53] (by decide)

/-! ## Lemmas about the checklist engine -/

/-- The required-slot item for a plain (non-financial) category. -/
def itemPlano (dict : TipoDocumento → Option Documento) (t : TipoDocumento) : ItemChecklist :=
  { tipo := t
    nombre := NOMBRES_DOCUMENTOS t
    requerido := true
    tiene_documento := docTiene (dict t)
    validado := some (docValidado (dict t))
    id := (dict t).map (fun d => d.id)
    path := (dict t).bind (fun d => d.path) }

/-- The Python truth value `validado_finanzas` of the merged financial slot. -/
def validadoFinanzas (dict : TipoDocumento → Option Documento) : Option Bool :=
  pyOr ((dict .finanzas_titulo).map (fun d => d.validado))
    ((dict .finanzas_licencia).map (fun d => d.validado))

/-- The merged financial-clearance slot item. -/
def itemFinanzas (dict : TipoDocumento → Option Documento) : ItemChecklist :=
  { tipo := .finanzas_titulo
    nombre := NOMBRES_DOCUMENTOS .finanzas_titulo
    requerido := true
    tiene_documento := (dict .finanzas_titulo).isSome || (dict .finanzas_licencia).isSome
    validado := validadoFinanzas dict
    id := (if (dict .finanzas_titulo).isSome then dict .finanzas_titulo
           else dict .finanzas_licencia).map (fun d => d.id)
    path := (if (dict .finanzas_titulo).isSome then dict .finanzas_titulo
             else dict .finanzas_licencia).bind (fun d => d.path) }

/-- The validated-required-slots counter of the loop. -/
def cuentaValidados (dict : TipoDocumento → Option Documento) : Nat :=
  (construirChecklist dict DOCUMENTOS_REQUERIDOS).2

theorem construir_eval (dict : TipoDocumento → Option Documento) :
    construirChecklist dict DOCUMENTOS_REQUERIDOS =
      ([itemPlano dict .bienestar, itemFinanzas dict, itemPlano dict .biblioteca,
        itemPlano dict .sdt, itemPlano dict .memorandum],
       (if docValidado (dict .bienestar) then 1 else 0) +
        ((if validadoFinanzas dict = some true then 1 else 0) +
         (0 +
          ((if docValidado (dict .biblioteca) then 1 else 0) +
           ((if docValidado (dict .sdt) then 1 else 0) +
            ((if docValidado (dict .memorandum) then 1 else 0) + 0)))))) := rfl

theorem cuenta_eval (dict : TipoDocumento → Option Documento) :
    cuentaValidados dict =
      (if docValidado (dict .bienestar) then 1 else 0) +
        ((if validadoFinanzas dict = some true then 1 else 0) +
         (0 +
          ((if docValidado (dict .biblioteca) then 1 else 0) +
           ((if docValidado (dict .sdt) then 1 else 0) +
            ((if docValidado (dict .memorandum) then 1 else 0) + 0))))) := rfl

theorem pyOr_eq_some_true (p q : Option Bool) :
    pyOr p q = some true ↔ p = some true ∨ q = some true := by
  unfold pyOr
  split_ifs with h
  · simp [h]
  · simp [h]

theorem pyOr_eq_none (p q : Option Bool) :
    pyOr p q = none ↔ ¬ p = some true ∧ q = none := by
  unfold pyOr
  split_ifs with h
  · simp [h]
  · simp [h]

theorem map_validado_some_true (o : Option Documento) :
    o.map (fun d => d.validado) = some true ↔ docValidado o = true := by
  cases o <;> simp [docValidado]

theorem map_validado_ne_some_true (o : Option Documento) :
    ¬ o.map (fun d => d.validado) = some true ↔ (∀ d, o = some d → d.validado = false) := by
  cases o <;> simp [docValidado]

theorem dictGet_foldl (t : TipoDocumento) :
    ∀ (l : List Documento) (acc : Option Documento),
      l.foldl (fun a d => if d.tipo = t then some d else a) acc
        = (dictGet l t).elim acc some := by
  intro l
  induction l with
  | nil => intro acc; rfl
  | cons d rest ih =>
    intro acc
    have hcons : dictGet (d :: rest) t
        = (dictGet rest t).elim (if d.tipo = t then some d else none) some := by
      unfold dictGet
      simp only [List.foldl_cons]
      rw [ih]
      rfl
    simp only [List.foldl_cons]
    rw [ih, hcons]
    cases dictGet rest t with
    | none =>
      simp only [Option.elim]
      split_ifs <;> rfl
    | some e => rfl

theorem dictGet_cons (d : Documento) (l : List Documento) (t : TipoDocumento) :
    dictGet (d :: l) t
      = (dictGet l t).elim (if d.tipo = t then some d else none) some := by
  unfold dictGet
  simp only [List.foldl_cons]
  rw [dictGet_foldl]
  rfl

theorem dictGet_append_singleton (l : List Documento) (d : Documento) (t : TipoDocumento) :
    dictGet (l ++ [d]) t = if d.tipo = t then some d else dictGet l t := by
  show (l ++ [d]).foldl (fun a x => if x.tipo = t then some x else a) none = _
  rw [List.foldl_append]
  simp only [List.foldl_cons, List.foldl_nil]
  rfl

theorem dictGet_filter_actualizar (p q : Documento → Bool) (f : Documento → Documento)
    (t : TipoDocumento) (hq : ∀ d, q (f d) = q d) (htipo : ∀ d, (f d).tipo = d.tipo) :
    ∀ l : List Documento, (∀ d ∈ l, p d = true → ¬ d.tipo = t) →
      dictGet ((actualizarPrimero p f l).filter q) t = dictGet (l.filter q) t := by
  intro l
  induction l with
  | nil => intro _; rfl
  | cons x xs ih =>
    intro hl
    unfold actualizarPrimero
    split_ifs with hp
    · rw [List.filter_cons, List.filter_cons, hq x]
      split_ifs with hqx
      · rw [dictGet_cons, dictGet_cons, htipo x]
        rw [if_neg (hl x (by simp) hp), if_neg (hl x (by simp) hp)]
      · rfl
    · rw [List.filter_cons, List.filter_cons]
      split_ifs with hqx
      · rw [dictGet_cons, dictGet_cons, ih (fun d hd => hl d (by simp [hd]))]
      · exact ih (fun d hd => hl d (by simp [hd]))

theorem dictGet_docsDe_agregar (db : BaseDatos) (d : Documento) (run : String)
    (t : TipoDocumento) (ht : ¬ d.tipo = t) :
    dictGet (docsDe (agregarDocumento db d) run) t = dictGet (docsDe db run) t := by
  unfold docsDe agregarDocumento
  rw [List.filter_append]
  by_cases hr : d.estudiante_run = run
  · rw [show (List.filter (fun x => decide (x.estudiante_run = run)) [d]) = [d] by simp [hr]]
    rw [dictGet_append_singleton, if_neg ht]
  · rw [show (List.filter (fun x => decide (x.estudiante_run = run)) [d]) = [] by simp [hr]]
    rw [List.append_nil]

theorem checklist_ok_inv (db : BaseDatos) (run : String) (data : ChecklistData)
    (h : obtener_checklist_estudiante db run = .ok data) : data = construirDatos db run := by
  unfold obtener_checklist_estudiante at h
  split_ifs at h with hc
  · exact (Except.ok.inj h).symm

theorem construirDatos_checklist (db : BaseDatos) (run : String) :
    (construirDatos db run).checklist =
      [itemPlano (dictGet (docsDe db run)) .bienestar,
       itemFinanzas (dictGet (docsDe db run)),
       itemPlano (dictGet (docsDe db run)) .biblioteca,
       itemPlano (dictGet (docsDe db run)) .sdt,
       itemPlano (dictGet (docsDe db run)) .memorandum] ++ itemsOpcionales (docsDe db run) := rfl

theorem construirDatos_resumen (db : BaseDatos) (run : String) :
    (construirDatos db run).resumen =
      { total_requeridos := 5
        documentos_validados := cuentaValidados (dictGet (docsDe db run))
        documentos_faltantes := 5 - cuentaValidados (dictGet (docsDe db run))
        listo_para_solicitar := cuentaValidados (dictGet (docsDe db run)) == 5 } := rfl

theorem mem_itemsOpcionales (docs : List Documento) (it : ItemChecklist)
    (h : it ∈ itemsOpcionales docs) :
    it.requerido = false ∧ ¬ it.tipo = .finanzas_titulo ∧ ¬ it.tipo = .finanzas_licencia
      ∧ ∃ b, it.validado = some b := by
  unfold itemsOpcionales at h
  rw [List.mem_map] at h
  obtain ⟨d, hd, rfl⟩ := h
  rw [List.mem_filter] at hd
  have hni : ¬ d.tipo ∈ DOCUMENTOS_REQUERIDOS := by
    simpa using hd.2
  simp only [DOCUMENTOS_REQUERIDOS, List.mem_cons, List.not_mem_nil, or_false, not_or] at hni
  exact ⟨rfl, hni.2.1, hni.2.2.1, d.validado, rfl⟩

theorem cuenta_eq_cinco_iff (dict : TipoDocumento → Option Documento) :
    cuentaValidados dict = 5 ↔
      (docValidado (dict .bienestar) = true ∧ validadoFinanzas dict = some true
        ∧ docValidado (dict .biblioteca) = true ∧ docValidado (dict .sdt) = true
        ∧ docValidado (dict .memorandum) = true) := by
  rw [cuenta_eval]
  split_ifs <;> simp_all

theorem cuenta_congr (d1 d2 : TipoDocumento → Option Documento)
    (h : ∀ t ∈ DOCUMENTOS_REQUERIDOS, d1 t = d2 t) :
    cuentaValidados d1 = cuentaValidados d2 := by
  rw [cuenta_eval, cuenta_eval,
    h .bienestar (by simp [DOCUMENTOS_REQUERIDOS]),
    h .biblioteca (by simp [DOCUMENTOS_REQUERIDOS]),
    h .sdt (by simp [DOCUMENTOS_REQUERIDOS]),
    h .memorandum (by simp [DOCUMENTOS_REQUERIDOS])]
  unfold validadoFinanzas
  rw [h .finanzas_titulo (by simp [DOCUMENTOS_REQUERIDOS]),
    h .finanzas_licencia (by simp [DOCUMENTOS_REQUERIDOS])]

theorem validar_documento_preserva_dict (db : BaseDatos) (doc_id : Nat) (v : Bool)
    (ahora : Nat) (db2 : BaseDatos)
    (h : validar_documento db doc_id v ahora = .ok db2)
    (hdd : ∀ dd ∈ db.documentos, dd.id = doc_id → (dd.tipo = .acta ∨ dd.tipo = .otro)) :
    ∀ (run : String) (t : TipoDocumento), ¬ t = .acta → ¬ t = .otro →
      dictGet (docsDe db2 run) t = dictGet (docsDe db run) t := by
  intro run t hta hto
  unfold validar_documento at h
  cases hfind : db.documentos.find? (fun d => d.id == doc_id) with
  | none =>
    rw [hfind] at h
    exact absurd h (by simp)
  | some dd0 =>
    rw [hfind] at h
    have hdb2 : db2 = { db with
        documentos := actualizarPrimero (fun d => d.id == doc_id)
          (fun d =>
            if v then
              { d with validado := true, validated_at := some ahora,
                       validated_by := some "Sistema" }
            else
              { d with validado := false, validated_at := none, validated_by := none })
          db.documentos } := (Except.ok.inj h).symm
    rw [hdb2]
    unfold docsDe
    apply dictGet_filter_actualizar
    · intro d
      split_ifs <;> rfl
    · intro d
      split_ifs <;> rfl
    · intro d hd hp
      have hid : d.id = doc_id := by simpa using hp
      rcases hdd d hd hid with h1 | h1 <;> rw [h1]
      · exact fun hc => hta hc.symm
      · exact fun hc => hto hc.symm

/-! ## Claims about the checklist -/

/-- **C1.** In the checklist of any student, the financial-clearance
requirement occupies exactly one slot, and that slot counts as validated
(Python-truthy, `some true`) exactly when at least one of the two variant
rows (`finanzas_titulo` or `finanzas_licencia`) carries a true validated
flag. -/
theorem claim1_finanzas_una_sola_vez :
    ∀ (db : BaseDatos) (run : String) (data : ChecklistData),
      obtener_checklist_estudiante db run = .ok data →
      ((data.checklist.filter (fun it =>
          it.tipo = .finanzas_titulo ∨ it.tipo = .finanzas_licencia)).length = 1
        ∧ ∀ it ∈ data.checklist,
            (it.tipo = .finanzas_titulo ∨ it.tipo = .finanzas_licencia) →
            (it.validado = some true ↔
              (docValidado (dictGet (docsDe db run) .finanzas_titulo) = true
                ∨ docValidado (dictGet (docsDe db run) .finanzas_licencia) = true))) := by
  intro db run data h
  rw [checklist_ok_inv db run data h]
  rw [construirDatos_checklist]
  constructor
  · rw [List.filter_append]
    rw [show (List.filter (fun it =>
        decide (it.tipo = .finanzas_titulo ∨ it.tipo = .finanzas_licencia))
        [itemPlano (dictGet (docsDe db run)) .bienestar,
         itemFinanzas (dictGet (docsDe db run)),
         itemPlano (dictGet (docsDe db run)) .biblioteca,
         itemPlano (dictGet (docsDe db run)) .sdt,
         itemPlano (dictGet (docsDe db run)) .memorandum])
        = [itemFinanzas (dictGet (docsDe db run))] from rfl]
    rw [List.filter_eq_nil_iff.mpr]
    · rfl
    · intro it hit
      obtain ⟨-, h1, h2, -⟩ := mem_itemsOpcionales _ _ hit
      simp [h1, h2]
  · intro it hmem htipo
    rw [List.mem_append] at hmem
    rcases hmem with hmem | hmem
    · simp only [List.mem_cons, List.not_mem_nil, or_false] at hmem
      rcases hmem with rfl | rfl | rfl | rfl | rfl
      · rcases htipo with h1 | h1 <;> simp [itemPlano] at h1
      · show validadoFinanzas (dictGet (docsDe db run)) = some true ↔ _
        unfold validadoFinanzas
        rw [pyOr_eq_some_true, map_validado_some_true, map_validado_some_true]
      · rcases htipo with h1 | h1 <;> simp [itemPlano] at h1
      · rcases htipo with h1 | h1 <;> simp [itemPlano] at h1
      · rcases htipo with h1 | h1 <;> simp [itemPlano] at h1
    · obtain ⟨-, h1, h2, -⟩ := mem_itemsOpcionales _ _ hmem
      rcases htipo with h3 | h3
      · exact absurd h3 h1
      · exact absurd h3 h2

/-- A concrete database: one student whose only financial document is a
validated licentiate-variant row. -/
def dbSoloLicencia : BaseDatos :=
  { estudiantes := ["11111111-1"]
    documentos := [{ id := 1, estudiante_run := "11111111-1",
                     tipo := .finanzas_licencia, path := some "fl.pdf",
                     validado := true, uploaded_at := 0,
                     validated_at := some 1, validated_by := some "Sistema" }]
    siguiente_id := 2 }

/-- Witness for C1: a student whose only financial document is a validated
licentiate variant has exactly one financial slot, and it is validated. -/
theorem claim1_witness :
    obtener_checklist_estudiante dbSoloLicencia "11111111-1"
        = .ok (construirDatos dbSoloLicencia "11111111-1")
      ∧ ((construirDatos dbSoloLicencia "11111111-1").checklist.filter (fun it =>
          it.tipo = .finanzas_titulo ∨ it.tipo = .finanzas_licencia)).length = 1
      ∧ ∀ it ∈ (construirDatos dbSoloLicencia "11111111-1").checklist,
          (it.tipo = .finanzas_titulo ∨ it.tipo = .finanzas_licencia) →
          it.validado = some true := by
  have h := claim1_finanzas_una_sola_vez dbSoloLicencia "11111111-1"
    (construirDatos dbSoloLicencia "11111111-1") rfl
  refine ⟨rfl, h.1, ?_⟩
  intro it hmem htipo
  exact (h.2 it hmem htipo).mpr (Or.inr (by decide))

/-- **C2.** The checklist summary's `listo_para_solicitar` is true exactly
when the count of validated required slots equals the total of required
slots, which is 5 (the two financial variants counted as one); equivalently,
exactly when every required slot's `validado` is (Python-truthy) `some true`.
Adding an extra non-required document (`acta`, `otro`) or toggling the
validated flag of such a document never changes `listo_para_solicitar`. -/
theorem claim2_listo_para_solicitar :
    ∀ (db : BaseDatos) (run : String) (data : ChecklistData),
      obtener_checklist_estudiante db run = .ok data →
      (data.resumen.total_requeridos = 5
        ∧ (data.resumen.listo_para_solicitar = true ↔
            data.resumen.documentos_validados = data.resumen.total_requeridos)
        ∧ (data.resumen.listo_para_solicitar = true ↔
            ∀ it ∈ data.checklist, it.requerido = true → it.validado = some true)
        ∧ (∀ d : Documento, (d.tipo = .acta ∨ d.tipo = .otro) →
            ∀ data2, obtener_checklist_estudiante (agregarDocumento db d) run = .ok data2 →
              data2.resumen.listo_para_solicitar = data.resumen.listo_para_solicitar)
        ∧ (∀ (doc_id : Nat) (v : Bool) (ahora : Nat) (db2 : BaseDatos),
            validar_documento db doc_id v ahora = .ok db2 →
            (∀ dd ∈ db.documentos, dd.id = doc_id → (dd.tipo = .acta ∨ dd.tipo = .otro)) →
            ∀ data3, obtener_checklist_estudiante db2 run = .ok data3 →
              data3.resumen.listo_para_solicitar = data.resumen.listo_para_solicitar)) := by
  intro db run data h
  rw [checklist_ok_inv db run data h]
  refine ⟨rfl, ?_, ?_, ?_, ?_⟩
  · rw [construirDatos_resumen]
    simp only [beq_iff_eq]
  · rw [construirDatos_resumen, construirDatos_checklist]
    simp only [beq_iff_eq]
    rw [cuenta_eq_cinco_iff]
    constructor
    · intro hc it hmem hreq
      rw [List.mem_append] at hmem
      rcases hmem with hmem | hmem
      · simp only [List.mem_cons, List.not_mem_nil, or_false] at hmem
        rcases hmem with rfl | rfl | rfl | rfl | rfl
        · show some (docValidado (dictGet (docsDe db run) .bienestar)) = some true
          rw [hc.1]
        · exact hc.2.1
        · show some (docValidado (dictGet (docsDe db run) .biblioteca)) = some true
          rw [hc.2.2.1]
        · show some (docValidado (dictGet (docsDe db run) .sdt)) = some true
          rw [hc.2.2.2.1]
        · show some (docValidado (dictGet (docsDe db run) .memorandum)) = some true
          rw [hc.2.2.2.2]
      · obtain ⟨hfalse, -, -, -⟩ := mem_itemsOpcionales _ _ hmem
        rw [hfalse] at hreq
        exact absurd hreq (by simp)
    · intro hall
      refine ⟨?_, ?_, ?_, ?_, ?_⟩
      · have := hall (itemPlano (dictGet (docsDe db run)) .bienestar) (by simp) rfl
        exact Option.some.inj this
      · exact hall (itemFinanzas (dictGet (docsDe db run))) (by simp) rfl
      · have := hall (itemPlano (dictGet (docsDe db run)) .biblioteca) (by simp) rfl
        exact Option.some.inj this
      · have := hall (itemPlano (dictGet (docsDe db run)) .sdt) (by simp) rfl
        exact Option.some.inj this
      · have := hall (itemPlano (dictGet (docsDe db run)) .memorandum) (by simp) rfl
        exact Option.some.inj this
  · intro d hd data2 h2
    rw [checklist_ok_inv _ _ _ h2, construirDatos_resumen, construirDatos_resumen]
    have hc : cuentaValidados (dictGet (docsDe (agregarDocumento db d) run))
        = cuentaValidados (dictGet (docsDe db run)) := by
      apply cuenta_congr
      intro t hmem
      apply dictGet_docsDe_agregar
      rcases hd with h1 | h1 <;> rw [h1] <;>
        simp only [DOCUMENTOS_REQUERIDOS, List.mem_cons, List.not_mem_nil, or_false] at hmem <;>
        rcases hmem with rfl | rfl | rfl | rfl | rfl | rfl <;> simp
    rw [hc]
  · intro doc_id v ahora db2 h2 hdd data3 h3
    rw [checklist_ok_inv _ _ _ h3, construirDatos_resumen, construirDatos_resumen]
    have hc : cuentaValidados (dictGet (docsDe db2 run))
        = cuentaValidados (dictGet (docsDe db run)) := by
      apply cuenta_congr
      intro t hmem
      apply validar_documento_preserva_dict db doc_id v ahora db2 h2 hdd run t
      · simp only [DOCUMENTOS_REQUERIDOS, List.mem_cons, List.not_mem_nil, or_false] at hmem
        rcases hmem with rfl | rfl | rfl | rfl | rfl | rfl <;> simp
      · simp only [DOCUMENTOS_REQUERIDOS, List.mem_cons, List.not_mem_nil, or_false] at hmem
        rcases hmem with rfl | rfl | rfl | rfl | rfl | rfl <;> simp
    rw [hc]

/-- Witness for C2 at a database whose student has only the financial slot
validated (through the licentiate variant): the summary iff holds there,
the total is 5, and adding an extra unvalidated `acta` document leaves
`listo_para_solicitar` unchanged. -/
theorem claim2_witness :
    obtener_checklist_estudiante dbSoloLicencia "11111111-1"
        = .ok (construirDatos dbSoloLicencia "11111111-1")
      ∧ (construirDatos dbSoloLicencia "11111111-1").resumen.total_requeridos = 5
      ∧ ((construirDatos dbSoloLicencia "11111111-1").resumen.listo_para_solicitar = true ↔
          (construirDatos dbSoloLicencia "11111111-1").resumen.documentos_validados
            = (construirDatos dbSoloLicencia "11111111-1").resumen.total_requeridos)
      ∧ (∀ data2,
          obtener_checklist_estudiante
              (agregarDocumento dbSoloLicencia
                { id := 9, estudiante_run := "11111111-1", tipo := .acta,
                  path := some "acta.pdf", validado := false, uploaded_at := 3,
                  validated_at := none, validated_by := none }) "11111111-1"
            = .ok data2 →
          data2.resumen.listo_para_solicitar
            = (construirDatos dbSoloLicencia "11111111-1").resumen.listo_para_solicitar) := by
  have h := claim2_listo_para_solicitar dbSoloLicencia "11111111-1"
    (construirDatos dbSoloLicencia "11111111-1") rfl
  exact ⟨rfl, h.1, h.2.1, fun data2 h2 => h.2.2.2.1
    { id := 9, estudiante_run := "11111111-1", tipo := .acta,
      path := some "acta.pdf", validado := false, uploaded_at := 3,
      validated_at := none, validated_by := none } (Or.inl rfl) data2 h2⟩

/-- **C9 (amended).** `obtener_checklist_estudiante` invoked for a student
identifier with no Student record raises a 404 error
("Estudiante no encontrado"); it does not yield an all-missing checklist. -/
theorem claim9_amended_404_estudiante_ausente :
    ∀ (db : BaseDatos) (run : String), db.estudiantes.contains run = false →
      obtener_checklist_estudiante db run = .error (404, "Estudiante no encontrado") := by
  intro db run h
  unfold obtener_checklist_estudiante
  rw [if_neg (by rw [h]; simp)]

/-- Counterexample for C9 as stated: for an empty database and any
identifier, the checklist route returns a 404 error rather than an
all-missing checklist. -/
theorem claim9_counterexample :
    obtener_checklist_estudiante
        { estudiantes := [], documentos := [], siguiente_id := 1 } "11111111-1"
      = .error (404, "Estudiante no encontrado") := rfl

/-- Witness for the amended C9 at a database holding a different student. -/
theorem claim9_witness :
    obtener_checklist_estudiante
        { estudiantes := ["22222222-2"], documentos := [], siguiente_id := 1 } "11111111-1"
      = .error (404, "Estudiante no encontrado") :=
  claim9_amended_404_estudiante_ausente
    { estudiantes := ["22222222-2"], documentos := [], siguiente_id := 1 } "11111111-1"
    (by decide)

/-- **C10.** In the checklist output the financial slot's `validado` carries
the Python value `None` exactly when the degree-variant row is absent or
unvalidated while the licentiate-variant row is absent; every other
required slot's `validado` is a genuine boolean (`some b`). -/
theorem claim10_validado_none_finanzas :
    ∀ (db : BaseDatos) (run : String) (data : ChecklistData),
      obtener_checklist_estudiante db run = .ok data →
      ((∀ it ∈ data.checklist,
          (it.tipo = .finanzas_titulo ∨ it.tipo = .finanzas_licencia) →
          (it.validado = none ↔
            ((∀ d, dictGet (docsDe db run) .finanzas_titulo = some d → d.validado = false)
              ∧ dictGet (docsDe db run) .finanzas_licencia = none)))
        ∧ ∀ it ∈ data.checklist, it.requerido = true → ¬ it.tipo = .finanzas_titulo →
            ∃ b, it.validado = some b) := by
  intro db run data h
  rw [checklist_ok_inv db run data h]
  rw [construirDatos_checklist]
  constructor
  · intro it hmem htipo
    rw [List.mem_append] at hmem
    rcases hmem with hmem | hmem
    · simp only [List.mem_cons, List.not_mem_nil, or_false] at hmem
      rcases hmem with rfl | rfl | rfl | rfl | rfl
      · rcases htipo with h1 | h1 <;> simp [itemPlano] at h1
      · show validadoFinanzas (dictGet (docsDe db run)) = none ↔ _
        unfold validadoFinanzas
        rw [pyOr_eq_none, map_validado_ne_some_true]
        cases dictGet (docsDe db run) .finanzas_licencia <;> simp
      · rcases htipo with h1 | h1 <;> simp [itemPlano] at h1
      · rcases htipo with h1 | h1 <;> simp [itemPlano] at h1
      · rcases htipo with h1 | h1 <;> simp [itemPlano] at h1
    · obtain ⟨-, h1, h2, -⟩ := mem_itemsOpcionales _ _ hmem
      rcases htipo with h3 | h3
      · exact absurd h3 h1
      · exact absurd h3 h2
  · intro it hmem hreq htipo
    rw [List.mem_append] at hmem
    rcases hmem with hmem | hmem
    · simp only [List.mem_cons, List.not_mem_nil, or_false] at hmem
      rcases hmem with rfl | rfl | rfl | rfl | rfl
      · exact ⟨_, rfl⟩
      · exact absurd rfl htipo
      · exact ⟨_, rfl⟩
      · exact ⟨_, rfl⟩
      · exact ⟨_, rfl⟩
    · exact (mem_itemsOpcionales _ _ hmem).2.2.2

/-- A concrete database: one student, no document rows at all. -/
def dbSinDocumentos : BaseDatos :=
  { estudiantes := ["11111111-1"], documentos := [], siguiente_id := 1 }

/-- Witness for C10: a student with no financial-clearance row of either
variant has the financial slot's `validado` equal to `None`. -/
theorem claim10_witness :
    ({ tipo := .finanzas_titulo, nombre := "Finanzas (Titulo)", requerido := true,
       tiene_documento := false, validado := none, id := none,
       path := none } : ItemChecklist)
      ∈ (construirDatos dbSinDocumentos "11111111-1").checklist
    ∧ ({ tipo := .finanzas_titulo, nombre := "Finanzas (Titulo)", requerido := true,
         tiene_documento := false, validado := none, id := none,
         path := none } : ItemChecklist).validado = none := by
  constructor
  · decide
  · have h := (claim10_validado_none_finanzas dbSinDocumentos "11111111-1"
      (construirDatos dbSinDocumentos "11111111-1") rfl).1
      { tipo := .finanzas_titulo, nombre := "Finanzas (Titulo)", requerido := true,
        tiene_documento := false, validado := none, id := none, path := none }
      (by decide) (Or.inl rfl)
    have hnone : dictGet (docsDe dbSinDocumentos "11111111-1") .finanzas_titulo = none := rfl
    exact h.mpr ⟨fun d hd => absurd (hnone ▸ hd) (by simp), rfl⟩

/-! ## Lemmas about the document upsert -/

theorem find?_append_none {α : Type} (p : α → Bool) (l1 l2 : List α)
    (h : l1.find? p = none) : (l1 ++ l2).find? p = l2.find? p := by
  induction l1 with
  | nil => rfl
  | cons x xs ih =>
    cases hp : p x with
    | true =>
      simp only [List.find?_cons, hp] at h
      exact absurd h (by simp)
    | false =>
      simp only [List.find?_cons, hp] at h
      simp only [List.cons_append, List.find?_cons, hp]
      exact ih h

theorem find?_actualizarPrimero {α : Type} (p : α → Bool) (f : α → α) (l : List α)
    (d : α) (h : l.find? p = some d) (hf : ∀ x, p x = true → p (f x) = true) :
    (actualizarPrimero p f l).find? p = some (f d) := by
  induction l with
  | nil => exact absurd h (by simp)
  | cons x xs ih =>
    cases hp : p x with
    | true =>
      simp only [List.find?_cons, hp] at h
      have hd : x = d := by simpa using h
      unfold actualizarPrimero
      rw [if_pos hp]
      simp only [List.find?_cons, hf x hp]
      rw [hd]
    | false =>
      simp only [List.find?_cons, hp] at h
      unfold actualizarPrimero
      rw [if_neg (by simp [hp])]
      simp only [List.find?_cons, hp]
      exact ih h

/-- **C6.** `subir_documento` leaves, for the pair `(run, tipo)`, a row whose
validated flag is false, whose storage path is the new path, and whose
upload timestamp is the upload instant — both when a prior row existed
(even a validated one: the flag is reset) and when a new row is created. -/
theorem claim6_subir_documento_reinicia_validacion :
    ∀ (db : BaseDatos) (run : String) (tipo : TipoDocumento) (ruta : String) (ahora : Nat),
      ((subir_documento db run tipo ruta ahora).1.documentos.find?
          (fun d => d.estudiante_run == run && d.tipo == tipo)).map
        (fun d => (d.validado, d.path, d.uploaded_at))
        = some (false, some ruta, ahora) := by
  intro db run tipo ruta ahora
  unfold subir_documento
  cases hfind : db.documentos.find? (fun d => d.estudiante_run == run && d.tipo == tipo) with
  | none =>
    rw [find?_append_none _ _ _ hfind]
    simp [List.find?_cons]
  | some d0 =>
    rw [find?_actualizarPrimero _ _ _ _ hfind]
    · rfl
    · intro x hx
      simpa using hx

/-! ## Claims about the persistence gateway -/

/-- A unit-of-work body that builds a pending state by adding a document row
and then raises before commit — the spec's injected mid-transaction
failure. -/
def operacionFallaTrasAgregar (d : Documento) (e : String) (s : BaseDatos) :
    Except String BaseDatos :=
  let _pendiente := agregarDocumento s d
  Except.error e

/-- **C4.** The unit-of-work context manager commits the pending state on
normal exit, rolls back (the committed state stays untouched) and re-raises
on any exception, and closes the session on both exit paths; in particular a
failure injected after adding a document row but before commit leaves the
document table unchanged — no partial write. -/
theorem claim4_unidad_de_trabajo :
    ∀ (db : BaseDatos) (op : BaseDatos → Except String BaseDatos),
      ((∀ db2, op db = .ok db2 →
          get_session_context db op =
            { resultado := .ok (), estado_visible := db2, sesion_cerrada := true })
        ∧ (∀ e, op db = .error e →
            get_session_context db op =
              { resultado := .error e, estado_visible := db, sesion_cerrada := true })
        ∧ (get_session_context db op).sesion_cerrada = true
        ∧ (∀ (d : Documento) (e : String),
            get_session_context db (operacionFallaTrasAgregar d e) =
              { resultado := .error e, estado_visible := db, sesion_cerrada := true })) := by
  intro db op
  refine ⟨?_, ?_, ?_, ?_⟩
  · intro db2 h
    unfold get_session_context
    rw [h]
  · intro e h
    unfold get_session_context
    rw [h]
  · unfold get_session_context
    cases op db <;> rfl
  · intro d e
    rfl

/-- Witness for C4 at a concrete database, a succeeding body, and a body
that fails after adding a row. -/
theorem claim4_witness :
    get_session_context ({ estudiantes := [], documentos := [], siguiente_id := 1 } : BaseDatos)
        (fun s => (Except.ok s : Except String BaseDatos))
      = { resultado := .ok (),
          estado_visible := { estudiantes := [], documentos := [], siguiente_id := 1 },
          sesion_cerrada := true }
    ∧ get_session_context ({ estudiantes := [], documentos := [], siguiente_id := 1 } : BaseDatos)
        (operacionFallaTrasAgregar
          { id := 1, estudiante_run := "11111111-1", tipo := .acta, path := some "a.pdf",
            validado := false, uploaded_at := 0, validated_at := none, validated_by := none }
          "falla inyectada")
      = { resultado := .error "falla inyectada",
          estado_visible := { estudiantes := [], documentos := [], siguiente_id := 1 },
          sesion_cerrada := true } := by
  constructor
  · exact (claim4_unidad_de_trabajo { estudiantes := [], documentos := [], siguiente_id := 1 }
      (fun s => (Except.ok s : Except String BaseDatos))).1 _ rfl
  · exact (claim4_unidad_de_trabajo { estudiantes := [], documentos := [], siguiente_id := 1 }
      (operacionFallaTrasAgregar
        { id := 1, estudiante_run := "11111111-1", tipo := .acta, path := some "a.pdf",
          validado := false, uploaded_at := 0, validated_at := none, validated_by := none }
        "falla inyectada")).2.2.2
      { id := 1, estudiante_run := "11111111-1", tipo := .acta, path := some "a.pdf",
        validado := false, uploaded_at := 0, validated_at := none, validated_by := none }
      "falla inyectada"

/-! ## Lemmas about the retry loop -/

theorem espera_duplica (k : Nat) (hk : 1 ≤ k) :
    espera_exponencial (k + 1) = min 100 (2 * espera_exponencial k) := by
  unfold espera_exponencial
  have h2 : 2 ≤ 2 ^ k := by
    calc 2 = 2 ^ 1 := by norm_num
    _ ≤ 2 ^ k := Nat.pow_le_pow_right (by omega) hk
  have h3 : 5 * 2 ^ (k + 1) = 2 * (5 * 2 ^ k) := by ring
  omega

theorem bucle_intentos_le (mundo : Nat → Except FalloSesion Nat) :
    ∀ (restantes hechos : Nat) (esperas : List Nat),
      (bucle_reintentos mundo restantes hechos esperas).intentos ≤ hechos + restantes := by
  intro restantes
  induction restantes with
  | zero =>
    intro hechos esperas
    show hechos ≤ hechos + 0
    omega
  | succ r ih =>
    intro hechos esperas
    unfold bucle_reintentos
    cases mundo (hechos + 1) with
    | ok s =>
      show hechos + 1 ≤ hechos + (r + 1)
      omega
    | error f =>
      cases f with
      | bloqueada =>
        split_ifs with hr
        · show hechos + 1 ≤ hechos + (r + 1)
          omega
        · exact le_trans (ih (hechos + 1) _) (by omega)
      | otra =>
        show hechos + 1 ≤ hechos + (r + 1)
        omega

theorem bucle_todas_bloqueadas (mundo : Nat → Except FalloSesion Nat) :
    ∀ (restantes hechos : Nat) (esperas : List Nat),
      1 ≤ restantes →
      (∀ k, hechos + 1 ≤ k → k ≤ hechos + restantes → mundo k = .error .bloqueada) →
      bucle_reintentos mundo restantes hechos esperas =
        ⟨.reintentosAgotados, hechos + restantes,
         esperas.reverse ++ (List.range' (hechos + 1) (restantes - 1)).map espera_exponencial⟩ := by
  intro restantes
  induction restantes with
  | zero => intro hechos esperas h1 _; omega
  | succ r ih =>
    intro hechos esperas _ hbl
    unfold bucle_reintentos
    rw [hbl (hechos + 1) (by omega) (by omega)]
    by_cases hr : r = 0
    · subst hr
      simp
    · rw [if_neg hr]
      rw [ih (hechos + 1) (espera_exponencial (hechos + 1) :: esperas) (by omega)
        (fun k hk1 hk2 => hbl k (by omega) (by omega))]
      obtain ⟨m, rfl⟩ := Nat.exists_eq_succ_of_ne_zero hr
      rw [EjecucionRetry.mk.injEq]
      refine ⟨rfl, by omega, ?_⟩
      rw [List.reverse_cons,
        show m + 1 - 1 = m from rfl, show m + 1 + 1 - 1 = m + 1 from rfl,
        List.range'_succ (hechos + 1) m 1, List.map_cons]
      simp [List.append_assoc]

theorem bucle_exito (mundo : Nat → Except FalloSesion Nat) (s j : Nat) :
    ∀ (restantes hechos : Nat) (esperas : List Nat),
      hechos < j → j ≤ hechos + restantes →
      (∀ k, hechos < k → k < j → mundo k = .error .bloqueada) →
      mundo j = .ok s →
      bucle_reintentos mundo restantes hechos esperas =
        ⟨.sesion s, j,
         esperas.reverse ++ (List.range' (hechos + 1) (j - 1 - hechos)).map espera_exponencial⟩ := by
  intro restantes
  induction restantes with
  | zero => intro hechos esperas h1 h2 _ _; omega
  | succ r ih =>
    intro hechos esperas h1 h2 hbl hok
    unfold bucle_reintentos
    by_cases hj : j = hechos + 1
    · subst hj
      rw [hok]
      simp
    · rw [hbl (hechos + 1) (by omega) (by omega)]
      rw [if_neg (by omega)]
      rw [ih (hechos + 1) (espera_exponencial (hechos + 1) :: esperas) (by omega) (by omega)
        (fun k hk1 hk2 => hbl k (by omega) hk2) hok]
      rw [EjecucionRetry.mk.injEq]
      refine ⟨rfl, rfl, ?_⟩
      have hm : j - 1 - hechos = (j - 1 - (hechos + 1)) + 1 := by omega
      rw [List.reverse_cons, hm, List.range'_succ (hechos + 1) (j - 1 - (hechos + 1)) 1,
        List.map_cons]
      simp [List.append_assoc]

theorem bucle_otra (mundo : Nat → Except FalloSesion Nat) (j : Nat) :
    ∀ (restantes hechos : Nat) (esperas : List Nat),
      hechos < j → j ≤ hechos + restantes →
      (∀ k, hechos < k → k < j → mundo k = .error .bloqueada) →
      mundo j = .error .otra →
      bucle_reintentos mundo restantes hechos esperas =
        ⟨.falloNoReintentable, j,
         esperas.reverse ++ (List.range' (hechos + 1) (j - 1 - hechos)).map espera_exponencial⟩ := by
  intro restantes
  induction restantes with
  | zero => intro hechos esperas h1 h2 _ _; omega
  | succ r ih =>
    intro hechos esperas h1 h2 hbl hok
    unfold bucle_reintentos
    by_cases hj : j = hechos + 1
    · subst hj
      rw [hok]
      simp
    · rw [hbl (hechos + 1) (by omega) (by omega)]
      rw [if_neg (by omega)]
      rw [ih (hechos + 1) (espera_exponencial (hechos + 1) :: esperas) (by omega) (by omega)
        (fun k hk1 hk2 => hbl k (by omega) hk2) hok]
      rw [EjecucionRetry.mk.injEq]
      refine ⟨rfl, rfl, ?_⟩
      have hm : j - 1 - hechos = (j - 1 - (hechos + 1)) + 1 := by omega
      rw [List.reverse_cons, hm, List.range'_succ (hechos + 1) (j - 1 - (hechos + 1)) 1,
        List.map_cons]
      simp [List.append_assoc]

/-- **C7.** The session-acquisition retry loop: when every attempt hits lock
contention it stops after exactly the configured `max_retries` attempts and
propagates an error (`RetryError`) instead of swallowing it; a first
successful attempt returns that session after only the preceding blocked
attempts; a non-`OperationalError` failure propagates immediately without
further retries; the attempt count is always bounded by `max_retries`; and
the waits slept between attempts follow the exponential-backoff schedule,
doubling up to the 10-second cap. -/
theorem claim7_get_session_reintentos :
    ∀ (mundo : Nat → Except FalloSesion Nat) (n : Nat),
      ((1 ≤ n → (∀ k, 1 ≤ k → k ≤ n → mundo k = .error .bloqueada) →
          get_session n mundo =
            ⟨.reintentosAgotados, n, (List.range' 1 (n - 1)).map espera_exponencial⟩)
        ∧ (∀ s j, 1 ≤ j → j ≤ n →
            (∀ k, 1 ≤ k → k < j → mundo k = .error .bloqueada) → mundo j = .ok s →
            get_session n mundo =
              ⟨.sesion s, j, (List.range' 1 (j - 1)).map espera_exponencial⟩)
        ∧ (∀ j, 1 ≤ j → j ≤ n →
            (∀ k, 1 ≤ k → k < j → mundo k = .error .bloqueada) → mundo j = .error .otra →
            get_session n mundo =
              ⟨.falloNoReintentable, j, (List.range' 1 (j - 1)).map espera_exponencial⟩)
        ∧ (get_session n mundo).intentos ≤ n
        ∧ (∀ k, 1 ≤ k →
            espera_exponencial (k + 1) = min 100 (2 * espera_exponencial k))) := by
  intro mundo n
  refine ⟨?_, ?_, ?_, ?_, ?_⟩
  · intro h1 hbl
    unfold get_session
    rw [bucle_todas_bloqueadas mundo n 0 [] h1 (fun k hk1 hk2 => hbl k hk1 (by omega))]
    simp
  · intro s j h1 h2 hbl hok
    unfold get_session
    rw [bucle_exito mundo s j n 0 [] (by omega) (by omega)
      (fun k hk1 hk2 => hbl k (by omega) hk2) hok]
    simp
  · intro j h1 h2 hbl hok
    unfold get_session
    rw [bucle_otra mundo j n 0 [] (by omega) (by omega)
      (fun k hk1 hk2 => hbl k (by omega) hk2) hok]
    simp
  · have := bucle_intentos_le mundo n 0 []
    simpa [get_session] using this
  · exact espera_duplica

/-- Witness for C7: with the first two attempts blocked and the third
succeeding, `get_session 5` returns the session at attempt 3 having slept
1.0 s then 2.0 s (10 and 20 tenths). -/
theorem claim7_witness :
    get_session 5 (fun k => if k < 3 then .error .bloqueada else .ok 7)
      = ⟨.sesion 7, 3, [10, 20]⟩ := by
  have h := (claim7_get_session_reintentos
      (fun k => if k < 3 then .error .bloqueada else .ok 7) 5).2.1 7 3
    (by omega) (by omega)
    (fun k hk1 hk2 => by simp [hk2])
    (by norm_num)
  rw [h]
  decide

/-! ## Claim about the bulk status change -/

theorem columnaProyecto_estudiante_run :
    columnaProyecto "estudiante_run"
      = .error "type object 'Proyecto' has no attribute 'estudiante_run'" := rfl

theorem bucleCambioEstado_falla (estado : EstadoExpediente) (acc : BaseExpedientes × Nat)
    (run : String) (rest : List String) :
    bucleCambioEstado estado acc (run :: rest)
      = .error "type object 'Proyecto' has no attribute 'estudiante_run'" := by
  unfold bucleCambioEstado pasoCambioEstado
  rw [columnaProyecto_estudiante_run]

theorem cambiar_estado_masivo_comportamiento :
    ∀ (db : BaseExpedientes) (runs : List String) (estado : EstadoExpediente),
      (runs = [] →
        cambiar_estado_masivo db runs estado =
          { estado_visible := db
            respuesta := .error (400, "Debe seleccionar al menos un estudiante") })
      ∧ (runs ≠ [] →
        cambiar_estado_masivo db runs estado =
          { estado_visible := db
            respuesta := .error
              (500, "type object 'Proyecto' has no attribute 'estudiante_run'") }) := by
  intro db runs estado
  constructor
  · intro h
    subst h
    rfl
  · intro h
    cases runs with
    | nil => exact absurd rfl h
    | cons run rest =>
      unfold cambiar_estado_masivo
      rw [if_neg (by simp)]
      rw [bucleCambioEstado_falla]

/-- A concrete database for the failing input: two single-author projects,
only the first of which has an expediente. -/
def dbDosProyectos : BaseExpedientes :=
  { proyectos := [{ id := 1, estudiante_run1 := "11111111-1", estudiante_run2 := none },
                  { id := 2, estudiante_run1 := "22222222-2", estudiante_run2 := none }]
    expedientes := [{ id := 1, proyecto_id := 1, estado := .pendiente }] }

/-- **C5 (code bug).** Evaluating the bulk status-change route at the
failing input — a non-empty batch whose first identifier owns a project
with an expediente — exhibits the divergence: the `Proyecto` class has no
`estudiante_run` attribute (while `estudiante_run1` resolves), so the first
loop iteration raises `AttributeError`, the unit of work rolls back, and
the route answers HTTP 500 with the committed database — including the
pending expediente — unchanged, instead of updating the expediente and
returning an updatedCount/skipped result as the claim states. -/
theorem claim5_ruta_falla_atributo :
    columnaProyecto "estudiante_run"
        = .error "type object 'Proyecto' has no attribute 'estudiante_run'"
      ∧ columnaProyecto "estudiante_run1" = .ok "estudiante_run1"
      ∧ cambiar_estado_masivo dbDosProyectos ["11111111-1", "22222222-2"] .enviado
          = { estado_visible := dbDosProyectos
              respuesta := .error
                (500, "type object 'Proyecto' has no attribute 'estudiante_run'") }
      ∧ dbDosProyectos.expedientes
          = [{ id := 1, proyecto_id := 1, estado := .pendiente }] := by
  refine ⟨columnaProyecto_estudiante_run, rfl, ?_, rfl⟩
  exact (cambiar_estado_masivo_comportamiento dbDosProyectos
    ["11111111-1", "22222222-2"] .enviado).2 (by simp)

end SGTE
